import Mathlib

/-!
Verification development for the strudel-mcp-server repository.

The dispatcher `process_mcp_message` (src/server.py and src/new_server.py)
is embedded as a pure function over a JSON value type, with the two external
ports (the Hugging Face embedding call and the Supabase `match_documents`
RPC) passed in as function parameters and every issued port call recorded in
an explicit trace.  Python attribute errors raised by `.get` on non-dict
values are modelled with `Except`.  The ingestion-time chunker
`chunk_documentation` (src/populate_db.py) is embedded over Lean strings,
with `re.split` of a line-anchored marker implemented character by
character.
-/

namespace StrudelMCP

/-- JSON values as produced by Flask's `request.get_json()`.  Python ints and
floats are both modelled as rationals. -/
inductive Json where
  | null : Json
  | bool : Bool → Json
  | num : ℚ → Json
  | str : String → Json
  | arr : List Json → Json
  | obj : List (String × Json) → Json

/-- Python `==` between an arbitrary value and a string literal: true exactly
when the value is an equal string. -/
def Json.eqStr : Json → String → Bool
  | .str s, t => s == t
  | _, _ => false

/-- The Python type name of a value, as it appears in `AttributeError`
messages. -/
def typeName : Json → String
  | .null => "NoneType"
  | .bool _ => "bool"
  | .num _ => "float"
  | .str _ => "str"
  | .arr _ => "list"
  | .obj _ => "dict"

/-- `dict.get(key, default)`: lookup in an association list with a default.
Association lists model Python dicts (keys unique, first binding wins). -/
def lookupD (kvs : List (String × Json)) (key : String) (d : Json) : Json :=
  match kvs.lookup key with
  | some v => v
  | none => d

/-- A raised Python exception, carrying its `str()` text. -/
inductive PyExc where
  | attributeError : String → PyExc

/-- `str(e)` of a raised exception. -/
def PyExc.msg : PyExc → String
  | .attributeError m => m

/-- `value.get(key, default)` in Python: succeeds on dicts, raises
`AttributeError` on every other value. -/
def dictGet (j : Json) (key : String) (default : Json) : Except PyExc Json :=
  match j with
  | .obj kvs => .ok (lookupD kvs key default)
  | _ => .error (.attributeError
      ("\x27" ++ typeName j ++ "\x27 object has no attribute \x27get\x27"))

/-- Python truth-value testing, as used by `if not query:`. -/
def pyFalsy : Json → Bool
  | .null => true
  | .bool b => !b
  | .num q => decide (q = 0)
  | .str s => decide (s = "")
  | .arr xs => xs.isEmpty
  | .obj kvs => kvs.isEmpty

/-- Python `str()` as interpolated into the f-strings of the error messages.
Strings interpolate verbatim and scalars use the CPython rendering; for
containers we use a placeholder (no claim inspects those renderings). -/
def pyStr : Json → String
  | .str s => s
  | .null => "None"
  | .bool b => cond b "True" "False"
  | .num q => toString q
  | .arr _ => "<list>"
  | .obj _ => "<dict>"

/-- A row returned by the `match_documents` RPC (the spec's SearchHit). -/
structure Hit where
  content : String
  similarity : ℚ

/-- Floor of a rational, computed with flooring integer division. -/
def ratFloor (q : ℚ) : ℤ := q.num.fdiv q.den

/-- Round-half-even, the rounding CPython's `format` applies. -/
def roundHalfEven (q : ℚ) : ℤ :=
  let f := ratFloor q
  let frac := q - (f : ℚ)
  if frac < 1/2 then f
  else if 1/2 < frac then f + 1
  else if f % 2 = 0 then f else f + 1

/-- The Python format spec `:.2f` applied to a similarity value (modelled as
an exact rational rather than a binary double). -/
def fmt2 (q : ℚ) : String :=
  let n := roundHalfEven (q * 100)
  let sign := if n < 0 then "-" else ""
  let m := n.natAbs
  let fp := m % 100
  sign ++ toString (m / 100) ++ "." ++ (if fp < 10 then "0" else "") ++ toString fp

/-- One formatted result block:
`f"--- Result {idx} (Similarity: {doc['similarity']:.2f}) ---\n{doc['content']}\n"`. -/
def resultBlock (idx : Nat) (h : Hit) : String :=
  "--- Result " ++ toString idx ++ " (Similarity: " ++ fmt2 h.similarity ++ ") ---\n"
    ++ h.content ++ "\n"

/-- Python `sep.join(list)`. -/
def pyJoin (sep : String) : List String → String
  | [] => ""
  | [x] => x
  | x :: y :: xs => x ++ sep ++ pyJoin sep (y :: xs)

/-- Python `enumerate(xs, start)`. -/
def enumerate1 : Nat → List α → List (Nat × α)
  | _, [] => []
  | i, x :: xs => (i, x) :: enumerate1 (i + 1) xs

/-- The `result_text` computed from `db_response.data` in the search tool
body (lines 159-168 of src/server.py). -/
def result_text (data : List Hit) : String :=
  if data.isEmpty then "No relevant documentation found for your query."
  else pyJoin "\n" ((enumerate1 1 data).map (fun p => resultBlock p.1 p.2))

/-- The static `SERVER_INFO` capability descriptor. -/
def SERVER_INFO : Json :=
  .obj [("protocolVersion", .str "2024-11-05"),
        ("capabilities", .obj [("tools", .obj [])]),
        ("serverInfo", .obj [("name", .str "strudel-docs-server"),
                             ("version", .str "1.0.0")])]

/-- The static `TOOLS` registry (one tool). -/
def TOOLS : Json :=
  .arr [.obj [
    ("name", .str "search_strudel_docs"),
    ("description", .str "Search the Strudel.cc documentation for information about patterns, samples, effects, syntax, and music generation techniques."),
    ("inputSchema", .obj [
      ("type", .str "object"),
      ("properties", .obj [
        ("query", .obj [
          ("type", .str "string"),
          ("description", .str "The search query (e.g., \x27how to use samples\x27, \x27mini notation syntax\x27)")]),
        ("maxResults", .obj [
          ("type", .str "number"),
          ("description", .str "Maximum number of results (default: 3)"),
          ("default", .num 3)])]),
      ("required", .arr [.str "query"])])]]

/-- A JSON-RPC success envelope. -/
def resultResponse (id result : Json) : Json :=
  .obj [("jsonrpc", .str "2.0"), ("id", id), ("result", result)]

/-- A JSON-RPC error envelope. -/
def errorResponse (id : Json) (code : ℚ) (message : String) : Json :=
  .obj [("jsonrpc", .str "2.0"), ("id", id),
        ("error", .obj [("code", .num code), ("message", .str message)])]

/-- The tool-call result wrapper: one text-typed content item. -/
def toolResult (text : String) : Json :=
  .obj [("content", .arr [.obj [("type", .str "text"), ("text", .str text)]])]

/-- The two external ports (embedding provider, vector store), injectable so
theorems can quantify over their behaviour. -/
structure Ports where
  embed : Json → Except String (List ℚ)
  search : List ℚ → ℚ → Json → Except String (List Hit)

/-- One issued external call, recorded in order of issue. -/
inductive PortCall where
  | embedCall : Json → PortCall
  | searchCall : List ℚ → ℚ → Json → PortCall

/-- The body of `process_mcp_message` (the code inside its outer `try`),
parametric in the hardcoded `match_threshold` (0.7 in src/server.py, 0.6 in
src/new_server.py).  Returns the Python result or the raised exception,
together with the list of port calls issued. -/
def processBody (threshold : ℚ) (ports : Ports) (message : Json) :
    Except PyExc (Option Json × Nat) × List PortCall :=
  match dictGet message "method" .null with
  | .error e => (.error e, [])
  | .ok method =>
    match dictGet message "params" (.obj []) with
    | .error e => (.error e, [])
    | .ok params =>
      match dictGet message "id" .null with
      | .error e => (.error e, [])
      | .ok msg_id =>
        if method.eqStr "initialize" then
          (.ok (some (resultResponse msg_id SERVER_INFO), 200), [])
        else if method.eqStr "tools/list" then
          (.ok (some (resultResponse msg_id (.obj [("tools", TOOLS)])), 200), [])
        else if method.eqStr "tools/call" then
          match dictGet params "name" .null with
          | .error e => (.error e, [])
          | .ok tool_name =>
            match dictGet params "arguments" (.obj []) with
            | .error e => (.error e, [])
            | .ok arguments =>
              if tool_name.eqStr "search_strudel_docs" then
                match dictGet arguments "query" .null with
                | .error e => (.error e, [])
                | .ok query =>
                  match dictGet arguments "maxResults" (.num 3) with
                  | .error e => (.error e, [])
                  | .ok max_results =>
                    if pyFalsy query then
                      (.ok (some (errorResponse msg_id (-32602)
                        "Missing required argument: query"), 400), [])
                    else
                      match ports.embed query with
                      | .error e =>
                        (.ok (some (errorResponse msg_id (-32603)
                          ("Error searching documentation: " ++ e)), 500),
                         [.embedCall query])
                      | .ok query_embedding =>
                        match ports.search query_embedding threshold max_results with
                        | .error e =>
                          (.ok (some (errorResponse msg_id (-32603)
                            ("Error searching documentation: " ++ e)), 500),
                           [.embedCall query,
                            .searchCall query_embedding threshold max_results])
                        | .ok data =>
                          (.ok (some (resultResponse msg_id
                            (toolResult (result_text data))), 200),
                           [.embedCall query,
                            .searchCall query_embedding threshold max_results])
              else
                (.ok (some (errorResponse msg_id (-32601)
                  ("Unknown tool: " ++ pyStr tool_name)), 400), [])
        else if method.eqStr "notifications/initialized" then
          (.ok (none, 204), [])
        else
          (.ok (some (errorResponse msg_id (-32601)
            ("Method not found: " ++ pyStr method)), 400), [])

/-- `process_mcp_message` with its outer `except Exception` handler, which
rebuilds a `-32603` response around `message.get('id')` — itself a call that
can raise when `message` is not a dict. -/
def process_mcp_messageTh (threshold : ℚ) (ports : Ports) (message : Json) :
    Except PyExc ((Option Json × Nat) × List PortCall) :=
  match processBody threshold ports message with
  | (.ok r, tr) => .ok (r, tr)
  | (.error e, tr) =>
    match dictGet message "id" .null with
    | .ok mid => .ok ((some (errorResponse mid (-32603) e.msg), 500), tr)
    | .error e2 => .error e2

/-- `process_mcp_message` of src/server.py (match_threshold 0.7). -/
def process_mcp_message (ports : Ports) (message : Json) :
    Except PyExc ((Option Json × Nat) × List PortCall) :=
  process_mcp_messageTh (7/10) ports message

/-- `process_mcp_message` of src/new_server.py (match_threshold 0.6). -/
def new_process_mcp_message (ports : Ports) (message : Json) :
    Except PyExc ((Option Json × Nat) × List PortCall) :=
  process_mcp_messageTh (3/5) ports message

/-- Extract the JSON-RPC error code of a response envelope, if any. -/
def respCode (resp : Json) : Option ℚ :=
  match resp with
  | .obj kvs =>
    match kvs.lookup "error" with
    | some (.obj ekvs) =>
      match ekvs.lookup "code" with
      | some (.num c) => some c
      | _ => none
    | _ => none
  | _ => none

/-- Ports whose embedding succeeds with a fixed vector and whose store
returns no rows. -/
def stubPorts : Ports where
  embed := fun _ => .ok [1]
  search := fun _ _ _ => .ok []

/-- Ports whose embedding call fails. -/
def failPorts : Ports where
  embed := fun _ => .error "embedding provider down"
  search := fun _ _ _ => .ok []

/-- Ports returning two fixed hits, in store order. -/
def twoHitPorts : Ports where
  embed := fun _ => .ok [1]
  search := fun _ _ _ => .ok [⟨"A", 91/100⟩, ⟨"B", 75/100⟩]

/-- Whitespace as stripped by Python `str.strip()` (ASCII part). -/
def isPyWS (c : Char) : Bool :=
  c == ' ' || c == '\t' || c == '\n' || c == '\r' || c == '\x0b' || c == '\x0c'

/-- Python `str.strip()`. -/
def pyStrip (s : String) : String :=
  String.mk (((s.data.dropWhile isPyWS).reverse.dropWhile isPyWS).reverse)

/-- Worker for `reSplit`: scan the characters, cutting a new piece wherever
the marker occurs at the start of a line.  `atStart` records whether the
current position is the start of the string or follows a newline; `cur` is
the current piece and `acc` the completed pieces, both reversed.  The fuel
argument only makes the recursion structural; it is always at least the
number of characters left, and every step consumes at least one character,
so the fuel-exhausted arm is unreachable. -/
def splitLinesGo (m : List Char) :
    Nat → List Char → Bool → List Char → List (List Char) → List (List Char)
  | 0, cs, _, cur, acc => ((cur.reverse ++ cs) :: acc).reverse
  | Nat.succ fuel, cs, atStart, cur, acc =>
    match cs with
    | [] => (cur.reverse :: acc).reverse
    | c :: rest =>
      if atStart && m.isPrefixOf cs then
        splitLinesGo m fuel (cs.drop m.length) false [] (cur.reverse :: acc)
      else
        splitLinesGo m fuel rest (c == '\n') (c :: cur) acc

/-- `re.split(r'^<marker>', text, flags=re.MULTILINE)`: the pieces of the
text between line-initial occurrences of the marker, markers removed.  The
worker keeps the current piece and the completed pieces in (reversed)
accumulators so that its evaluation is iterative. -/
def reSplit (m : String) (s : String) : List String :=
  (splitLinesGo m.data (s.data.length + 1) s.data true [] []).map String.mk

/-- The per-section step of the chunking loop (lines 28-42 of
src/populate_db.py), applied to `section = '## ' + section_content`.  Note
the code prepends a further `'## '` to `subsections[0]`, which already
begins with the section's own `## ` header. -/
def sectionChunks (s : String) : List String :=
  if s.length > 2000 then
    let subsections := reSplit "### " s
    ("## " ++ subsections.headD "") :: (subsections.drop 1).map (fun sub => "### " ++ sub)
  else [s]

/-- `chunk_documentation` of src/populate_db.py. -/
def chunk_documentation (markdown_text : String) : List String :=
  let sections := reSplit "## " markdown_text
  let chunks := (sections.drop 1).flatMap
    (fun section_content => sectionChunks ("## " ++ section_content))
  chunks.filter (fun c => (pyStrip c).length > 50)

/-- A 60-character filler line. -/
def fillA : String := String.mk (List.replicate 60 'a')

/-- Another 60-character filler line. -/
def fillB : String := String.mk (List.replicate 60 'c')

/-- The character content of one subsection piece: 51 times `s`, then a
newline. -/
def pieceChars : List Char := List.replicate 51 's' ++ ['\n']

/-- One full `### ` subsection of the oversize test document. -/
def subChars : List Char := '#' :: '#' :: '#' :: ' ' :: pieceChars

/-- `k` consecutive subsections. -/
def repChars : Nat → List Char
  | 0 => []
  | Nat.succ k => subChars ++ repChars k

/-- Everything after the leading `## ` of the oversize test document: a
title line, a 60-character intro line, and 40 subsections (2307 characters
in total, so the section exceeds the 2000-character limit). -/
def bodyChars : List Char :=
  'T' :: 'i' :: 't' :: 'l' :: 'e' :: '\n' :: (List.replicate 60 'a' ++ ('\n' :: repChars 40))

/-- A document with one oversize section holding 40 subheaders. -/
def bigDoc : String := String.mk ('#' :: '#' :: ' ' :: bodyChars)

/-- The body of `bigDoc` after its leading section marker. -/
def bigBody : String := String.mk bodyChars

/-- The characters of the pre-subheader intro of `bigDoc`, after its `## `. -/
def introChars : List Char :=
  'T' :: 'i' :: 't' :: 'l' :: 'e' :: '\n' :: (List.replicate 60 'a' ++ ['\n'])

/-- The pre-subheader intro of `bigDoc`, header line included. -/
def bigIntro : String := String.mk ('#' :: '#' :: ' ' :: introChars)

/-- The text of each subsection of `bigDoc`, as split off by `reSplit`. -/
def bigSub : String := String.mk pieceChars

/-! ## Helper lemmas -/

theorem dictGet_obj (kvs : List (String × Json)) (k : String) (d : Json) :
    dictGet (Json.obj kvs) k d = Except.ok (lookupD kvs k d) := rfl

theorem respCode_errorResponse (i : Json) (c : ℚ) (m : String) :
    respCode (errorResponse i c m) = some c := rfl

theorem respCode_resultResponse (i r : Json) :
    respCode (resultResponse i r) = none := rfl

/-! ## C1 -/

/-- C1 (amended): for every dict-shaped input message, `process_mcp_message`
returns a (response, status) pair and never raises; when the handling body
raises, the outer handler converts the exception into a `-32603` response
whose message is the exception text, echoing the extracted `id` (JSON null
when absent). -/
theorem dict_message_never_raises (th : ℚ) (ports : Ports) (kvs : List (String × Json)) :
    ∃ v, process_mcp_messageTh th ports (Json.obj kvs) = Except.ok v ∧
      ∀ e tr, processBody th ports (Json.obj kvs) = (Except.error e, tr) →
        v = ((some (errorResponse (lookupD kvs "id" Json.null) (-32603) e.msg), 500), tr) := by
  rcases hb : processBody th ports (Json.obj kvs) with ⟨res, tr⟩
  cases res with
  | ok r =>
    refine ⟨(r, tr), ?_, ?_⟩
    · unfold process_mcp_messageTh
      rw [hb]
    · intro e tr2 he
      exact absurd he (by simp)
  | error e =>
    refine ⟨((some (errorResponse (lookupD kvs "id" Json.null) (-32603) e.msg), 500), tr), ?_, ?_⟩
    · unfold process_mcp_messageTh
      rw [hb]
      rfl
    · intro e2 tr2 he
      injection he with h1 h2
      injection h1 with h3
      rw [h3, h2]

/-- C1 counterexample to the claim as stated: on a non-dict message (a JSON
array) the dispatcher itself raises, because the outer handler re-invokes
`message.get('id')` on the non-dict value. -/
theorem nondict_message_raises :
    process_mcp_message stubPorts (Json.arr []) =
      Except.error (PyExc.attributeError
        "\x27list\x27 object has no attribute \x27get\x27") := rfl

/-! ## C2 -/

/-- C2 (amended): only the method name decides notification handling: every
message whose `method` is `notifications/initialized` yields no response
body, `(None, 204)`, with no port calls. -/
theorem notifications_initialized_no_response (th : ℚ) (ports : Ports) (msg : Json)
    (h : dictGet msg "method" Json.null = Except.ok (Json.str "notifications/initialized")) :
    process_mcp_messageTh th ports msg = Except.ok ((none, 204), []) := by
  cases msg with
  | obj kvs =>
    rw [dictGet_obj] at h
    injection h with h1
    unfold process_mcp_messageTh processBody
    simp only [dictGet_obj, h1]
    rfl
  | null => simp [dictGet] at h
  | bool b => simp [dictGet] at h
  | num q => simp [dictGet] at h
  | str s => simp [dictGet] at h
  | arr xs => simp [dictGet] at h

theorem notifications_initialized_no_response_witness :
    process_mcp_messageTh (7/10) stubPorts
      (Json.obj [("method", Json.str "notifications/initialized")]) =
      Except.ok ((none, 204), []) :=
  notifications_initialized_no_response (7/10) stubPorts
    (Json.obj [("method", Json.str "notifications/initialized")]) rfl

/-- C2 counterexample to the claim as stated: a request with no `id` whose
method is `initialize` still produces a response body (with `id` null),
refuting that id-less requests yield no response regardless of method. -/
theorem no_id_initialize_still_answered :
    process_mcp_message stubPorts (Json.obj [("method", Json.str "initialize")]) =
      Except.ok ((some (resultResponse Json.null SERVER_INFO), 200), []) ∧
    (some (resultResponse Json.null SERVER_INFO) : Option Json) ≠ none :=
  ⟨rfl, Option.some_ne_none _⟩

/-! ## Shared reduction of a search-tool call -/

theorem processBody_search_tool (th : ℚ) (ports : Ports) (msg params mid : Json)
    (args : List (String × Json))
    (hm : dictGet msg "method" Json.null = Except.ok (Json.str "tools/call"))
    (hp : dictGet msg "params" (Json.obj []) = Except.ok params)
    (hid : dictGet msg "id" Json.null = Except.ok mid)
    (hn : dictGet params "name" Json.null = Except.ok (Json.str "search_strudel_docs"))
    (ha : dictGet params "arguments" (Json.obj []) = Except.ok (Json.obj args)) :
    processBody th ports msg =
      (if pyFalsy (lookupD args "query" Json.null) then
        (Except.ok (some (errorResponse mid (-32602) "Missing required argument: query"), 400), [])
      else
        match ports.embed (lookupD args "query" Json.null) with
        | .error e =>
          (Except.ok (some (errorResponse mid (-32603)
            ("Error searching documentation: " ++ e)), 500),
           [PortCall.embedCall (lookupD args "query" Json.null)])
        | .ok v =>
          match ports.search v th (lookupD args "maxResults" (Json.num 3)) with
          | .error e =>
            (Except.ok (some (errorResponse mid (-32603)
              ("Error searching documentation: " ++ e)), 500),
             [PortCall.embedCall (lookupD args "query" Json.null),
              PortCall.searchCall v th (lookupD args "maxResults" (Json.num 3))])
          | .ok data =>
            (Except.ok (some (resultResponse mid (toolResult (result_text data))), 200),
             [PortCall.embedCall (lookupD args "query" Json.null),
              PortCall.searchCall v th (lookupD args "maxResults" (Json.num 3))])) := by
  cases msg with
  | obj kvs =>
    rw [dictGet_obj] at hm hp hid
    injection hm with hm1
    injection hp with hp1
    injection hid with hid1
    cases params with
    | obj pkvs =>
      rw [dictGet_obj] at hn ha
      injection hn with hn1
      injection ha with ha1
      unfold processBody
      simp only [dictGet_obj, hm1, hp1, hid1, hn1, ha1]
      rfl
    | null => simp [dictGet] at hn
    | bool b => simp [dictGet] at hn
    | num q => simp [dictGet] at hn
    | str s => simp [dictGet] at hn
    | arr xs => simp [dictGet] at hn
  | null => simp [dictGet] at hm
  | bool b => simp [dictGet] at hm
  | num q => simp [dictGet] at hm
  | str s => simp [dictGet] at hm
  | arr xs => simp [dictGet] at hm

/-! ## C3 -/

theorem processBody_status (th : ℚ) (ports : Ports) (msg : Json)
    (resp : Option Json) (s : Nat) (tr : List PortCall)
    (h : processBody th ports msg = (Except.ok (resp, s), tr)) :
    (resp = none ∧ s = 204) ∨
    (∃ r, resp = some r ∧
      ((respCode r = none ∧ s = 200) ∨
       (respCode r = some (-32601) ∧ s = 400) ∨
       (respCode r = some (-32602) ∧ s = 400) ∨
       (respCode r = some (-32603) ∧ s = 500))) := by
  unfold processBody at h
  repeat' split at h
  all_goals first
    | (simp only [Prod.mk.injEq, Except.ok.injEq] at h
       obtain ⟨⟨h1, h2⟩, h3⟩ := h
       subst h1
       subst h2
       simp [respCode_errorResponse, respCode_resultResponse])
    | simp at h

/-- C3 (amended): every delivered dispatcher outcome pairs its HTTP status
with its error class as the code does: 204 with no body for the
notification; 200 only for success responses (no `error` member); 400 for
both method/tool-not-found (`-32601`) and missing-required-argument
(`-32602`) errors; 500 for internal (`-32603`) errors. -/
theorem status_by_error_class (th : ℚ) (ports : Ports) (msg : Json)
    (resp : Option Json) (s : Nat) (tr : List PortCall)
    (h : process_mcp_messageTh th ports msg = Except.ok ((resp, s), tr)) :
    (resp = none ∧ s = 204) ∨
    (∃ r, resp = some r ∧
      ((respCode r = none ∧ s = 200) ∨
       (respCode r = some (-32601) ∧ s = 400) ∨
       (respCode r = some (-32602) ∧ s = 400) ∨
       (respCode r = some (-32603) ∧ s = 500))) := by
  unfold process_mcp_messageTh at h
  split at h
  · rename_i r trX heq
    simp only [Except.ok.injEq, Prod.mk.injEq] at h
    obtain ⟨h1, h3⟩ := h
    rw [h1, h3] at heq
    exact processBody_status th ports msg resp s tr heq
  · rename_i e trX heq
    split at h
    · simp only [Except.ok.injEq, Prod.mk.injEq] at h
      obtain ⟨⟨h1, h2⟩, h3⟩ := h
      subst h1
      subst h2
      exact Or.inr ⟨_, rfl, Or.inr (Or.inr (Or.inr ⟨respCode_errorResponse .., rfl⟩))⟩
    · exact absurd h (by simp)

theorem status_by_error_class_witness :
    ((none : Option Json) = none ∧ (204 : Nat) = 204) ∨
    (∃ r, (none : Option Json) = some r ∧
      ((respCode r = none ∧ (204 : Nat) = 200) ∨
       (respCode r = some (-32601) ∧ (204 : Nat) = 400) ∨
       (respCode r = some (-32602) ∧ (204 : Nat) = 400) ∨
       (respCode r = some (-32603) ∧ (204 : Nat) = 500))) :=
  status_by_error_class (7/10) stubPorts
    (Json.obj [("method", Json.str "notifications/initialized")]) none 204 [] rfl

/-- C3 counterexample to the claim as stated: an unknown method produces a
`-32601` error with HTTP status 400, not the claimed 200. -/
theorem unknown_method_status_400 :
    process_mcp_message stubPorts
      (Json.obj [("method", Json.str "foo/bar"), ("id", Json.num 1)]) =
      Except.ok ((some (errorResponse (Json.num 1) (-32601) "Method not found: foo/bar"), 400), []) ∧
    (400 : Nat) ≠ 200 :=
  ⟨rfl, by decide⟩

/-! ## C4 -/

/-- C4: a `tools/call` of the search tool whose `query` argument is missing
(absent, hence fetched as null) or the empty string yields the `-32602`
error and an empty port-call trace: neither the embedding provider nor the
store is invoked. -/
theorem missing_query_no_calls (th : ℚ) (ports : Ports) (msg params mid : Json)
    (args : List (String × Json))
    (hm : dictGet msg "method" Json.null = Except.ok (Json.str "tools/call"))
    (hp : dictGet msg "params" (Json.obj []) = Except.ok params)
    (hid : dictGet msg "id" Json.null = Except.ok mid)
    (hn : dictGet params "name" Json.null = Except.ok (Json.str "search_strudel_docs"))
    (ha : dictGet params "arguments" (Json.obj []) = Except.ok (Json.obj args))
    (hq : lookupD args "query" Json.null = Json.null ∨
          lookupD args "query" Json.null = Json.str "") :
    process_mcp_messageTh th ports msg =
      Except.ok ((some (errorResponse mid (-32602) "Missing required argument: query"), 400), []) := by
  have hred := processBody_search_tool th ports msg params mid args hm hp hid hn ha
  have hfal : pyFalsy (lookupD args "query" Json.null) = true := by
    rcases hq with h | h <;> rw [h] <;> rfl
  unfold process_mcp_messageTh
  rw [hred, if_pos hfal]

theorem missing_query_no_calls_witness :
    process_mcp_messageTh (7/10) stubPorts
      (Json.obj [("method", Json.str "tools/call"), ("id", Json.num 5),
        ("params", Json.obj [("name", Json.str "search_strudel_docs"),
          ("arguments", Json.obj [])])]) =
      Except.ok ((some (errorResponse (Json.num 5) (-32602)
        "Missing required argument: query"), 400), []) :=
  missing_query_no_calls (7/10) stubPorts _
    (Json.obj [("name", Json.str "search_strudel_docs"), ("arguments", Json.obj [])])
    (Json.num 5) [] rfl rfl rfl rfl rfl (Or.inl rfl)

/-! ## C6 -/

/-- C6: a `tools/call` of the search tool with a non-empty string `query`,
against a store returning zero rows, produces a success response (a
`result`, not an `error`) whose text is exactly the literal
no-results sentence. -/
theorem empty_store_literal (th : ℚ) (ports : Ports) (msg params mid : Json)
    (args : List (String × Json)) (q : String) (vec : List ℚ)
    (hm : dictGet msg "method" Json.null = Except.ok (Json.str "tools/call"))
    (hp : dictGet msg "params" (Json.obj []) = Except.ok params)
    (hid : dictGet msg "id" Json.null = Except.ok mid)
    (hn : dictGet params "name" Json.null = Except.ok (Json.str "search_strudel_docs"))
    (ha : dictGet params "arguments" (Json.obj []) = Except.ok (Json.obj args))
    (hq : lookupD args "query" Json.null = Json.str q)
    (hne : q ≠ "")
    (hemb : ports.embed (Json.str q) = Except.ok vec)
    (hsearch : ports.search vec th (lookupD args "maxResults" (Json.num 3)) = Except.ok []) :
    process_mcp_messageTh th ports msg =
      Except.ok ((some (resultResponse mid
        (toolResult "No relevant documentation found for your query.")), 200),
       [PortCall.embedCall (Json.str q),
        PortCall.searchCall vec th (lookupD args "maxResults" (Json.num 3))]) := by
  have hred := processBody_search_tool th ports msg params mid args hm hp hid hn ha
  have hfal : pyFalsy (lookupD args "query" Json.null) = false := by
    rw [hq]
    simp [pyFalsy, hne]
  unfold process_mcp_messageTh
  rw [hred, if_neg (by rw [hfal]; exact Bool.false_ne_true), hq]
  simp only [hemb, hsearch]
  rfl

theorem empty_store_literal_witness :
    process_mcp_messageTh (7/10) stubPorts
      (Json.obj [("method", Json.str "tools/call"), ("id", Json.num 9),
        ("params", Json.obj [("name", Json.str "search_strudel_docs"),
          ("arguments", Json.obj [("query", Json.str "samples")])])]) =
      Except.ok ((some (resultResponse (Json.num 9)
        (toolResult "No relevant documentation found for your query.")), 200),
       [PortCall.embedCall (Json.str "samples"),
        PortCall.searchCall [1] (7/10)
          (lookupD [("query", Json.str "samples")] "maxResults" (Json.num 3))]) :=
  empty_store_literal (7/10) stubPorts _
    (Json.obj [("name", Json.str "search_strudel_docs"),
      ("arguments", Json.obj [("query", Json.str "samples")])])
    (Json.num 9) [("query", Json.str "samples")] "samples" [1]
    rfl rfl rfl rfl rfl rfl (by decide) rfl rfl

/-! ## C7 -/

/-- C7 (amended): a `tools/call` of the search tool with a non-falsy `query`
whose embedding call succeeds issues exactly one Search Port call, carrying
the variant's hardcoded `match_threshold` (0.7 in src/server.py, 0.6 in
src/new_server.py — threshold parameter `th` here) and the caller's
`maxResults`, which defaults to 3 when the argument is absent. -/
theorem search_called_once_with_threshold (th : ℚ) (ports : Ports)
    (msg params mid : Json) (args : List (String × Json)) (vec : List ℚ)
    (hm : dictGet msg "method" Json.null = Except.ok (Json.str "tools/call"))
    (hp : dictGet msg "params" (Json.obj []) = Except.ok params)
    (hid : dictGet msg "id" Json.null = Except.ok mid)
    (hn : dictGet params "name" Json.null = Except.ok (Json.str "search_strudel_docs"))
    (ha : dictGet params "arguments" (Json.obj []) = Except.ok (Json.obj args))
    (hq : pyFalsy (lookupD args "query" Json.null) = false)
    (hemb : ports.embed (lookupD args "query" Json.null) = Except.ok vec) :
    ∃ resp s, process_mcp_messageTh th ports msg =
      Except.ok ((resp, s),
       [PortCall.embedCall (lookupD args "query" Json.null),
        PortCall.searchCall vec th (lookupD args "maxResults" (Json.num 3))]) := by
  have hred := processBody_search_tool th ports msg params mid args hm hp hid hn ha
  unfold process_mcp_messageTh
  rw [hred, if_neg (by rw [hq]; exact Bool.false_ne_true)]
  simp only [hemb]
  cases hs : ports.search vec th (lookupD args "maxResults" (Json.num 3)) with
  | ok data =>
    simp only [hs]
    exact ⟨_, _, rfl⟩
  | error e =>
    simp only [hs]
    exact ⟨_, _, rfl⟩

theorem search_called_once_with_threshold_witness :
    ∃ resp s, process_mcp_messageTh (7/10) stubPorts
      (Json.obj [("method", Json.str "tools/call"),
        ("params", Json.obj [("name", Json.str "search_strudel_docs"),
          ("arguments", Json.obj [("query", Json.str "notes")])])]) =
      Except.ok ((resp, s),
       [PortCall.embedCall (lookupD [("query", Json.str "notes")] "query" Json.null),
        PortCall.searchCall [1] (7/10)
          (lookupD [("query", Json.str "notes")] "maxResults" (Json.num 3))]) :=
  search_called_once_with_threshold (7/10) stubPorts _
    (Json.obj [("name", Json.str "search_strudel_docs"),
      ("arguments", Json.obj [("query", Json.str "notes")])])
    Json.null [("query", Json.str "notes")] [1]
    rfl rfl rfl rfl rfl rfl rfl

/-- C7 counterexample to the claim as stated: src/server.py calls the store
with threshold 0.7, not a configured default of 0.6; and when the embedding
call fails, the Search Port is not invoked at all. -/
theorem server_threshold_is_0_7 :
    process_mcp_message stubPorts
      (Json.obj [("method", Json.str "tools/call"),
        ("params", Json.obj [("name", Json.str "search_strudel_docs"),
          ("arguments", Json.obj [("query", Json.str "samples")])])]) =
      Except.ok ((some (resultResponse Json.null
        (toolResult "No relevant documentation found for your query.")), 200),
       [PortCall.embedCall (Json.str "samples"),
        PortCall.searchCall [1] (7/10) (Json.num 3)]) ∧
    (7/10 : ℚ) ≠ 3/5 ∧
    process_mcp_message failPorts
      (Json.obj [("method", Json.str "tools/call"),
        ("params", Json.obj [("name", Json.str "search_strudel_docs"),
          ("arguments", Json.obj [("query", Json.str "samples")])])]) =
      Except.ok ((some (errorResponse Json.null (-32603)
        "Error searching documentation: embedding provider down"), 500),
       [PortCall.embedCall (Json.str "samples")]) :=
  ⟨rfl, by norm_num, rfl⟩

/-! ## C5 -/

theorem pyJoin_map_append_nl : ∀ (l : List String), l ≠ [] →
    pyJoin "\n" (l.map (fun u => u ++ "\n")) = pyJoin "\n\n" l ++ "\n"
  | [], h => absurd rfl h
  | [x], _ => rfl
  | x :: y :: ys, _ => by
    have ih := pyJoin_map_append_nl (y :: ys) (by simp)
    show (x ++ "\n") ++ "\n" ++ pyJoin "\n" ((y :: ys).map (fun u => u ++ "\n")) =
      (x ++ "\n\n" ++ pyJoin "\n\n" (y :: ys)) ++ "\n"
    rw [ih]
    simp only [String.append_assoc]
    rfl

/-- C5: for a non-empty hit list the tool text is the 1-indexed header
blocks (similarity rendered to two decimals, raw content below the header)
joined by blank lines, in store order. -/
theorem result_text_blocks (hits : List Hit) (hne : hits ≠ []) :
    result_text hits =
      pyJoin "\n\n" ((enumerate1 1 hits).map (fun p =>
        "--- Result " ++ toString p.1 ++ " (Similarity: " ++ fmt2 p.2.similarity
          ++ ") ---\n" ++ p.2.content)) ++ "\n" := by
  cases hits with
  | nil => exact absurd rfl hne
  | cons a t =>
    unfold result_text
    rw [if_neg (by simp)]
    rw [show (enumerate1 1 (a :: t)).map (fun p => resultBlock p.1 p.2)
          = ((enumerate1 1 (a :: t)).map (fun p =>
              "--- Result " ++ toString p.1 ++ " (Similarity: " ++ fmt2 p.2.similarity
                ++ ") ---\n" ++ p.2.content)).map (fun u => u ++ "\n") from by
        rw [List.map_map]
        rfl]
    refine pyJoin_map_append_nl _ ?_
    rw [show enumerate1 1 (a :: t) = (1, a) :: enumerate1 2 t from rfl]
    simp

theorem result_text_blocks_witness :
    ([(⟨"A", 91/100⟩ : Hit), ⟨"B", 75/100⟩] ≠ []) ∧
    result_text [⟨"A", 91/100⟩, ⟨"B", 75/100⟩] =
      pyJoin "\n\n" ((enumerate1 1 [(⟨"A", 91/100⟩ : Hit), ⟨"B", 75/100⟩]).map (fun p =>
        "--- Result " ++ toString p.1 ++ " (Similarity: " ++ fmt2 p.2.similarity
          ++ ") ---\n" ++ p.2.content)) ++ "\n" :=
  ⟨by simp,
   result_text_blocks [⟨"A", 91/100⟩, ⟨"B", 75/100⟩] (by simp)⟩

/-! ## C8 -/

/-- C8 (amended): a document of exactly two `##` sections, each under 2000
characters and each longer than 50 characters after trimming, chunks into
exactly those two sections, each carrying its `## ` prefix; and every chunk
the function ever returns is longer than 50 characters after trimming.  (A
section whose trimmed length is at most 50 is dropped by the final filter,
so the claim's unqualified "exactly two chunks" fails; see the
counterexample.) -/
theorem two_small_sections (doc pre s1 s2 : String)
    (hsplit : reSplit "## " doc = [pre, s1, s2])
    (hl1 : ("## " ++ s1).length < 2000)
    (hl2 : ("## " ++ s2).length < 2000)
    (ht1 : 50 < (pyStrip ("## " ++ s1)).length)
    (ht2 : 50 < (pyStrip ("## " ++ s2)).length) :
    chunk_documentation doc = ["## " ++ s1, "## " ++ s2] ∧
    (∀ d c, c ∈ chunk_documentation d → 50 < (pyStrip c).length) := by
  constructor
  · unfold chunk_documentation
    rw [hsplit]
    simp only [List.drop_succ_cons, List.drop_zero, List.flatMap_cons, List.flatMap_nil,
      List.append_nil]
    unfold sectionChunks
    rw [if_neg (by omega), if_neg (by omega)]
    refine List.filter_eq_self.mpr ?_
    intro c hc
    simp at hc
    rcases hc with rfl | rfl
    · exact decide_eq_true ht1
    · exact decide_eq_true ht2
  · intro d c hc
    unfold chunk_documentation at hc
    have hmem := List.of_mem_filter hc
    exact of_decide_eq_true hmem

set_option maxRecDepth 20000 in
set_option maxHeartbeats 1000000 in
theorem two_small_sections_witness :
    chunk_documentation ("## " ++ fillA ++ "\n## " ++ fillB) =
      ["## " ++ (fillA ++ "\n"), "## " ++ fillB] ∧
    (∀ d c, c ∈ chunk_documentation d → 50 < (pyStrip c).length) :=
  two_small_sections ("## " ++ fillA ++ "\n## " ++ fillB) "" (fillA ++ "\n") fillB
    rfl (by decide) (by decide) (by decide) (by decide)

/-- C8 counterexample to the claim as stated: a document with two `##`
sections, both under 2000 characters, whose sections are short: the final
filter removes both, so zero chunks are returned rather than two. -/
theorem two_short_sections_filtered_out :
    reSplit "## " "## a\n## b" = ["", "a\n", "b"] ∧
    ("## " ++ "a\n").length < 2000 ∧
    ("## " ++ "b").length < 2000 ∧
    chunk_documentation "## a\n## b" = [] :=
  ⟨rfl, by decide, by decide, rfl⟩

/-! ## C9 -/

/-- C9 (amended): an oversize (> 2000 characters) `##` section is split at
its `###` subheader boundaries: the pre-subheader intro (the section's
`## ` header line plus the text before the first `###`) is retained inside
the first sub-chunk, which is that intro with one more `'## '` prefix
prepended by the code; each following sub-chunk is `'### '` plus the
subsection text (sub-chunks trimmed to 50 characters or fewer are then
filtered out; the hypotheses here keep all of them). -/
theorem big_section_subheader_split (doc pre body intro : String) (subs : List String)
    (hsplit : reSplit "## " doc = [pre, body])
    (hlen : 2000 < ("## " ++ body).length)
    (hsub : reSplit "### " ("## " ++ body) = intro :: subs)
    (hkeep : ∀ c ∈ ("## " ++ intro) :: subs.map (fun sub => "### " ++ sub),
      50 < (pyStrip c).length) :
    chunk_documentation doc = ("## " ++ intro) :: subs.map (fun sub => "### " ++ sub) := by
  unfold chunk_documentation
  rw [hsplit]
  simp only [List.drop_succ_cons, List.drop_zero, List.flatMap_cons, List.flatMap_nil,
    List.append_nil]
  unfold sectionChunks
  rw [if_pos hlen, hsub]
  simp only [List.headD_cons, List.drop_succ_cons, List.drop_zero]
  refine List.filter_eq_self.mpr ?_
  intro c hc
  exact decide_eq_true (hkeep c hc)

theorem splitStepNoCut (m : List Char) (fuel : Nat) (c : Char) (rest cur : List Char)
    (acc : List (List Char)) (b : Bool)
    (hcond : (b && m.isPrefixOf (c :: rest)) = false) :
    splitLinesGo m (fuel + 1) (c :: rest) b cur acc =
      splitLinesGo m fuel rest (c == '\n') (c :: cur) acc := by
  have h : splitLinesGo m (fuel + 1) (c :: rest) b cur acc =
      if b && m.isPrefixOf (c :: rest) then
        splitLinesGo m fuel ((c :: rest).drop m.length) false [] (cur.reverse :: acc)
      else splitLinesGo m fuel rest (c == '\n') (c :: cur) acc := rfl
  rw [h, hcond]
  simp

theorem splitStepCut (m : List Char) (fuel : Nat) (c : Char) (rest rest2 cur : List Char)
    (acc : List (List Char)) (b : Bool)
    (hcond : (b && m.isPrefixOf (c :: rest)) = true)
    (hdrop : (c :: rest).drop m.length = rest2) :
    splitLinesGo m (fuel + 1) (c :: rest) b cur acc =
      splitLinesGo m fuel rest2 false [] (cur.reverse :: acc) := by
  have h : splitLinesGo m (fuel + 1) (c :: rest) b cur acc =
      if b && m.isPrefixOf (c :: rest) then
        splitLinesGo m fuel ((c :: rest).drop m.length) false [] (cur.reverse :: acc)
      else splitLinesGo m fuel rest (c == '\n') (c :: cur) acc := rfl
  rw [h, hcond, hdrop]
  simp

theorem replicate_shift (k : Nat) (c : Char) (l : List Char) :
    List.replicate k c ++ c :: l = c :: (List.replicate k c ++ l) := by
  induction k with
  | zero => rfl
  | succ k ih => simp [List.replicate_succ, ih]

theorem scanReplicate (m : List Char) (c : Char)
    (hm : ∀ t, m.isPrefixOf (c :: t) = false) (hc : (c == '\n') = false) :
    ∀ (n fuel : Nat) (rest cur : List Char) (acc : List (List Char)) (b : Bool),
      splitLinesGo m (n + (fuel + 1)) (List.replicate n c ++ rest) b cur acc =
      splitLinesGo m (fuel + 1) rest (if n = 0 then b else false)
        (List.replicate n c ++ cur) acc := by
  intro n
  induction n with
  | zero =>
    intro fuel rest cur acc b
    simp
  | succ k ih =>
    intro fuel rest cur acc b
    rw [show (k + 1) + (fuel + 1) = (k + (fuel + 1)) + 1 from by omega,
      List.replicate_succ, List.cons_append,
      splitStepNoCut m (k + (fuel + 1)) c (List.replicate k c ++ rest) cur acc b
        (by rw [hm, Bool.and_false]),
      hc,
      ih fuel rest (c :: cur) acc false]
    simp [replicate_shift]

theorem repChars_succ_shape (k : Nat) :
    repChars (k + 1) =
      '#' :: '#' :: '#' :: ' ' :: (List.replicate 51 's' ++ ('\n' :: repChars k)) := by
  simp [repChars, subChars, pieceChars, List.append_assoc]

theorem scanBlock (m : List Char) :
    ∀ (block : List Char), (∀ c ∈ block, (c == '\n') = false) →
      ∀ (n fuel : Nat), block.length = n →
      ∀ (rest cur : List Char) (acc : List (List Char)),
        splitLinesGo m (n + (fuel + 1)) (block ++ rest) false cur acc =
        splitLinesGo m (fuel + 1) rest false (block.reverse ++ cur) acc := by
  intro block
  induction block with
  | nil =>
    intro _ n fuel hn rest cur acc
    subst hn
    simp
  | cons c bt ih =>
    intro hb n fuel hn rest cur acc
    subst hn
    rw [show (c :: bt).length + (fuel + 1) = (bt.length + (fuel + 1)) + 1 from by
        simp only [List.length_cons]
        omega,
      List.cons_append,
      splitStepNoCut m (bt.length + (fuel + 1)) c (bt ++ rest) cur acc false rfl,
      hb c (List.mem_cons_self c bt),
      ih (fun x hx => hb x (List.mem_cons_of_mem c hx)) bt.length fuel rfl rest (c :: cur) acc]
    simp [List.append_assoc]

theorem scanRep3 : ∀ (k fuel : Nat) (cur : List Char) (acc : List (List Char)),
    splitLinesGo ['#', '#', '#', ' '] (53 * k + (fuel + 1)) (repChars k) true cur acc =
      acc.reverse ++ cur.reverse :: List.replicate k pieceChars := by
  intro k
  induction k with
  | zero =>
    intro fuel cur acc
    rw [show 53 * 0 + (fuel + 1) = fuel + 1 from by omega]
    show (cur.reverse :: acc).reverse = _
    simp
  | succ k ih =>
    intro fuel cur acc
    rw [show 53 * (k + 1) + (fuel + 1) = (53 * k + fuel + 53) + 1 from by omega,
      repChars_succ_shape,
      splitStepCut ['#', '#', '#', ' '] (53 * k + fuel + 53) '#'
        ('#' :: '#' :: ' ' :: (List.replicate 51 's' ++ ('\n' :: repChars k)))
        (List.replicate 51 's' ++ ('\n' :: repChars k)) cur acc true rfl rfl,
      show 53 * k + fuel + 53 = 51 + ((53 * k + fuel + 1) + 1) from by omega,
      scanReplicate ['#', '#', '#', ' '] 's' (fun t => rfl) rfl 51 (53 * k + fuel + 1)
        ('\n' :: repChars k) [] (cur.reverse :: acc) false,
      show (if (51 : Nat) = 0 then false else false) = false from by simp,
      List.append_nil,
      splitStepNoCut ['#', '#', '#', ' '] (53 * k + fuel + 1) '\n' (repChars k)
        (List.replicate 51 's') (cur.reverse :: acc) false rfl,
      show (('\n' : Char) == '\n') = true from rfl,
      show 53 * k + fuel + 1 = 53 * k + (fuel + 1) from by omega,
      ih fuel ('\n' :: List.replicate 51 's') (cur.reverse :: acc)]
    simp [pieceChars, List.replicate_succ, List.append_assoc]

theorem scanRep2 : ∀ (k fuel : Nat) (cur : List Char) (acc : List (List Char)),
    splitLinesGo ['#', '#', ' '] (56 * k + (fuel + 1)) (repChars k) true cur acc =
      acc.reverse ++ [cur.reverse ++ repChars k] := by
  intro k
  induction k with
  | zero =>
    intro fuel cur acc
    rw [show 56 * 0 + (fuel + 1) = fuel + 1 from by omega]
    show (cur.reverse :: acc).reverse = _
    simp [repChars]
  | succ k ih =>
    intro fuel cur acc
    rw [show 56 * (k + 1) + (fuel + 1) = (56 * k + fuel + 56) + 1 from by omega,
      repChars_succ_shape,
      splitStepNoCut ['#', '#', ' '] (56 * k + fuel + 56) '#'
        ('#' :: '#' :: ' ' :: (List.replicate 51 's' ++ ('\n' :: repChars k))) cur acc true rfl,
      show (('#' : Char) == '\n') = false from rfl,
      show 56 * k + fuel + 56 = (56 * k + fuel + 55) + 1 from by omega,
      splitStepNoCut ['#', '#', ' '] (56 * k + fuel + 55) '#'
        ('#' :: ' ' :: (List.replicate 51 's' ++ ('\n' :: repChars k)))
        ('#' :: cur) acc false rfl,
      show (('#' : Char) == '\n') = false from rfl,
      show 56 * k + fuel + 55 = (56 * k + fuel + 54) + 1 from by omega,
      splitStepNoCut ['#', '#', ' '] (56 * k + fuel + 54) '#'
        (' ' :: (List.replicate 51 's' ++ ('\n' :: repChars k)))
        ('#' :: '#' :: cur) acc false rfl,
      show (('#' : Char) == '\n') = false from rfl,
      show 56 * k + fuel + 54 = (56 * k + fuel + 53) + 1 from by omega,
      splitStepNoCut ['#', '#', ' '] (56 * k + fuel + 53) ' '
        (List.replicate 51 's' ++ ('\n' :: repChars k))
        ('#' :: '#' :: '#' :: cur) acc false rfl,
      show ((' ' : Char) == '\n') = false from rfl,
      show 56 * k + fuel + 53 = 51 + ((56 * k + fuel + 1) + 1) from by omega,
      scanReplicate ['#', '#', ' '] 's' (fun t => rfl) rfl 51 (56 * k + fuel + 1)
        ('\n' :: repChars k) (' ' :: '#' :: '#' :: '#' :: cur) acc false,
      show (if (51 : Nat) = 0 then false else false) = false from by simp,
      splitStepNoCut ['#', '#', ' '] (56 * k + fuel + 1) '\n' (repChars k)
        (List.replicate 51 's' ++ (' ' :: '#' :: '#' :: '#' :: cur)) acc false rfl,
      show (('\n' : Char) == '\n') = true from rfl,
      show 56 * k + fuel + 1 = 56 * k + (fuel + 1) from by omega]
    rw [ih fuel
      ('\n' :: (List.replicate 51 's' ++ (' ' :: '#' :: '#' :: '#' :: cur))) acc]
    simp [List.reverse_append, List.append_assoc]

theorem repChars_length : ∀ k, (repChars k).length = 56 * k := by
  intro k
  induction k with
  | zero => rfl
  | succ k ih =>
    simp only [repChars, subChars, pieceChars, List.length_append, List.length_cons,
      List.length_nil, List.length_replicate, ih]
    omega

theorem stringMk_nil : String.mk [] = "" := rfl

theorem bigDoc_data_length : bigDoc.data.length = 2310 := by
  show ('#' :: '#' :: ' ' :: bodyChars).length = 2310
  simp [bodyChars, List.length_append, List.length_replicate, repChars_length]

theorem reSplit_bigDoc : reSplit "## " bigDoc = ["", bigBody] := by
  unfold reSplit
  rw [bigDoc_data_length,
    show "## ".data = ['#', '#', ' '] from rfl,
    show bigDoc.data = '#' :: '#' :: ' ' :: bodyChars from rfl,
    splitStepCut ['#', '#', ' '] 2310 '#' ('#' :: ' ' :: bodyChars) bodyChars [] [] true rfl rfl]
  simp only [List.reverse_nil]
  rw [show bodyChars =
      ['T', 'i', 't', 'l', 'e'] ++ ('\n' :: (List.replicate 60 'a' ++ ('\n' :: repChars 40)))
      from rfl,
    show (2310 : Nat) = 5 + (2304 + 1) from by norm_num,
    scanBlock ['#', '#', ' '] ['T', 'i', 't', 'l', 'e'] (by decide) 5 2304 rfl
      ('\n' :: (List.replicate 60 'a' ++ ('\n' :: repChars 40))) [] [[]],
    show (['T', 'i', 't', 'l', 'e'] : List Char).reverse ++ ([] : List Char) =
      ['e', 'l', 't', 'i', 'T'] from rfl,
    splitStepNoCut ['#', '#', ' '] 2304 '\n' (List.replicate 60 'a' ++ ('\n' :: repChars 40))
      ['e', 'l', 't', 'i', 'T'] [[]] false rfl,
    show (('\n' : Char) == '\n') = true from rfl,
    show (2304 : Nat) = 60 + (2243 + 1) from by norm_num,
    scanReplicate ['#', '#', ' '] 'a' (fun t => rfl) rfl 60 2243 ('\n' :: repChars 40)
      ('\n' :: ['e', 'l', 't', 'i', 'T']) [[]] true,
    show (if (60 : Nat) = 0 then true else false) = false from by norm_num,
    splitStepNoCut ['#', '#', ' '] 2243 '\n' (repChars 40)
      (List.replicate 60 'a' ++ ('\n' :: ['e', 'l', 't', 'i', 'T'])) [[]] false rfl,
    show (('\n' : Char) == '\n') = true from rfl,
    show (2243 : Nat) = 56 * 40 + (2 + 1) from by norm_num,
    scanRep2 40 2 ('\n' :: (List.replicate 60 'a' ++ ('\n' :: ['e', 'l', 't', 'i', 'T']))) [[]]]
  simp [bigBody, bodyChars, stringMk_nil, List.reverse_cons, List.reverse_append,
    List.reverse_replicate, List.append_assoc]

theorem bigSection_data_length : ("## " ++ bigBody).data.length = 2310 := by
  show ('#' :: '#' :: ' ' :: bodyChars).length = 2310
  simp [bodyChars, List.length_append, List.length_replicate, repChars_length]

theorem bigSection_length : 2000 < ("## " ++ bigBody).length := by
  show 2000 < ("## " ++ bigBody).data.length
  rw [bigSection_data_length]
  norm_num

theorem reSplit_bigSection :
    reSplit "### " ("## " ++ bigBody) = bigIntro :: List.replicate 40 bigSub := by
  unfold reSplit
  rw [bigSection_data_length,
    show "### ".data = ['#', '#', '#', ' '] from rfl,
    show ("## " ++ bigBody).data = '#' :: '#' :: ' ' :: bodyChars from rfl,
    splitStepNoCut ['#', '#', '#', ' '] 2310 '#' ('#' :: ' ' :: bodyChars) [] [] true rfl,
    show (('#' : Char) == '\n') = false from rfl,
    show (2310 : Nat) = 2309 + 1 from by norm_num,
    splitStepNoCut ['#', '#', '#', ' '] 2309 '#' (' ' :: bodyChars) ['#'] [] false rfl,
    show (('#' : Char) == '\n') = false from rfl,
    show (2309 : Nat) = 2308 + 1 from by norm_num,
    splitStepNoCut ['#', '#', '#', ' '] 2308 ' ' bodyChars ['#', '#'] [] false rfl,
    show ((' ' : Char) == '\n') = false from rfl,
    show bodyChars =
      ['T', 'i', 't', 'l', 'e'] ++ ('\n' :: (List.replicate 60 'a' ++ ('\n' :: repChars 40)))
      from rfl,
    show (2308 : Nat) = 5 + (2302 + 1) from by norm_num,
    scanBlock ['#', '#', '#', ' '] ['T', 'i', 't', 'l', 'e'] (by decide) 5 2302 rfl
      ('\n' :: (List.replicate 60 'a' ++ ('\n' :: repChars 40))) [' ', '#', '#'] [],
    show (['T', 'i', 't', 'l', 'e'] : List Char).reverse ++ ([' ', '#', '#'] : List Char) =
      ['e', 'l', 't', 'i', 'T', ' ', '#', '#'] from rfl,
    splitStepNoCut ['#', '#', '#', ' '] 2302 '\n'
      (List.replicate 60 'a' ++ ('\n' :: repChars 40))
      ['e', 'l', 't', 'i', 'T', ' ', '#', '#'] [] false rfl,
    show (('\n' : Char) == '\n') = true from rfl,
    show (2302 : Nat) = 60 + (2241 + 1) from by norm_num,
    scanReplicate ['#', '#', '#', ' '] 'a' (fun t => rfl) rfl 60 2241 ('\n' :: repChars 40)
      ('\n' :: ['e', 'l', 't', 'i', 'T', ' ', '#', '#']) [] true,
    show (if (60 : Nat) = 0 then true else false) = false from by norm_num,
    splitStepNoCut ['#', '#', '#', ' '] 2241 '\n' (repChars 40)
      (List.replicate 60 'a' ++ ('\n' :: ['e', 'l', 't', 'i', 'T', ' ', '#', '#'])) [] false rfl,
    show (('\n' : Char) == '\n') = true from rfl,
    show (2241 : Nat) = 53 * 40 + (120 + 1) from by norm_num,
    scanRep3 40 120
      ('\n' :: (List.replicate 60 'a' ++ ('\n' :: ['e', 'l', 't', 'i', 'T', ' ', '#', '#'])))
      []]
  simp [bigIntro, introChars, bigSub, List.reverse_cons, List.reverse_append,
    List.reverse_replicate, List.append_assoc, List.map_replicate]

set_option maxRecDepth 20000 in
theorem bigChunks_long :
    ∀ c ∈ ("## " ++ bigIntro) :: (List.replicate 40 bigSub).map (fun sub => "### " ++ sub),
      50 < (pyStrip c).length := by
  decide

theorem big_section_subheader_split_witness :
    chunk_documentation bigDoc =
      ("## " ++ bigIntro) :: (List.replicate 40 bigSub).map (fun sub => "### " ++ sub) :=
  big_section_subheader_split bigDoc "" bigBody bigIntro (List.replicate 40 bigSub)
    reSplit_bigDoc bigSection_length reSplit_bigSection bigChunks_long

set_option maxRecDepth 20000 in
/-- C9 counterexample to the claim as stated: the first sub-chunk is not the
pre-subheader intro itself but the intro with a spurious extra `'## '`
prefix (the code re-prepends `'## '` to `subsections[0]`, which already
starts with the section's `## ` header). -/
theorem first_subchunk_doubles_header :
    (chunk_documentation bigDoc).headD "" = "## " ++ bigIntro ∧
    "## " ++ bigIntro ≠ bigIntro := by
  constructor
  · have hcd : chunk_documentation bigDoc =
        ("## " ++ bigIntro) :: (List.replicate 40 bigSub).map (fun sub => "### " ++ sub) := by
      unfold chunk_documentation
      rw [reSplit_bigDoc]
      simp only [List.drop_succ_cons, List.drop_zero, List.flatMap_cons, List.flatMap_nil,
        List.append_nil]
      unfold sectionChunks
      rw [if_pos bigSection_length, reSplit_bigSection]
      simp only [List.headD_cons, List.drop_succ_cons, List.drop_zero]
      exact List.filter_eq_self.mpr (fun c hc => decide_eq_true (bigChunks_long c hc))
    rw [hcd]
    rfl
  · decide

/-! ## C10 -/

/-- C10: text before the first line-initial `## ` header is discarded: the
chunking depends only on what follows the first header (two documents
agreeing there chunk identically), and a document with no `## ` header at
all (whose split has a single piece) yields no chunks. -/
theorem preheader_discarded (doc d1 d2 : String)
    (h1 : (reSplit "## " doc).length = 1)
    (h2 : (reSplit "## " d1).drop 1 = (reSplit "## " d2).drop 1) :
    chunk_documentation doc = [] ∧ chunk_documentation d1 = chunk_documentation d2 := by
  constructor
  · simp only [chunk_documentation]
    rw [List.drop_eq_nil_of_le h1.le]
    rfl
  · simp only [chunk_documentation]
    rw [h2]

set_option maxRecDepth 20000 in
set_option maxHeartbeats 1000000 in
theorem preheader_discarded_witness :
    chunk_documentation "no section headers in this document at all" = [] ∧
    chunk_documentation ("junk before the first header\n## " ++ fillA) =
      chunk_documentation ("## " ++ fillA) :=
  preheader_discarded "no section headers in this document at all"
    ("junk before the first header\n## " ++ fillA) ("## " ++ fillA) rfl
    (by
      rw [show reSplit "## " ("junk before the first header\n## " ++ fillA) =
            ["junk before the first header\n", fillA] from rfl,
        show reSplit "## " ("## " ++ fillA) = ["", fillA] from rfl]
      rfl)

end StrudelMCP
